import Mathlib

/-
Verification of the interactive dataframe filter engine of this
repository (`filter_dataframe` in src/streamlit_app.py, lines 61-123).

The embedding models a pandas DataFrame shallowly:

  * a `Frame` is a schema (column names with pandas dtypes) together with
    a list of rows, each row a list of cells aligned with the schema;
  * a `Cell` is a numeric value (floats modelled as rationals — every
    value exercised here is exactly representable), a datetime value
    (modelled as an integer timestamp, with day-granularity dates
    embedding at midnight), a string, or a missing value (NaN/NaT/None);
  * the per-column widget state supplied by the user is a `UserInput`:
    the multiselect selection, the slider range, the date-input list
    (one or two dates) or the text-input pattern.  When the widget kind
    produced for a column does not match the shape of the supplied
    input (Streamlit rebuilds a widget of a new type with its default
    value), the branch falls back to its declared default, exactly the
    `default=`/initial values passed to the widgets in the source.

The four filter branches, the classification dispatch (the
`if is_categorical_dtype(...) or nunique < 10 / elif is_numeric_dtype /
elif is_datetime64_any_dtype / else` chain), the `len(user_date_input)
== 2` gate, the `if user_text_input:` gate and the final
`.style.format({"star rating": "{:.2f}"})` call are translated
one-for-one below.
-/

namespace BookApp

/-- Pandas dtype of a column, as tested by `is_categorical_dtype`,
`is_numeric_dtype` and `is_datetime64_any_dtype` in the source; `object`
is the fall-through case (plain Python objects / strings). -/
inductive Dtype
  | categorical
  | numeric
  | datetime
  | object
deriving DecidableEq

/-- A single table cell.  `missing` stands for NaN/NaT/None. -/
inductive Cell
  | num (q : ℚ)
  | dt (t : ℤ)
  | str (s : String)
  | missing
deriving DecidableEq

/-- A dataframe: named, typed columns and rows of cells aligned with the
schema.  Row identity is positional, mirroring the pandas index. -/
structure Frame where
  schema : List (String × Dtype)
  rows : List (List Cell)
deriving DecidableEq

/-- Cell of a row at a named column, resolved through the schema. -/
def cellAt (schema : List (String × Dtype)) (row : List Cell) (c : String) : Cell :=
  match schema.findIdx? (fun p => p.1 == c) with
  | some i => row.getD i Cell.missing
  | none => Cell.missing

/-- The values of column `c`, in row order (`df[column]`). -/
def Frame.col (f : Frame) (c : String) : List Cell :=
  f.rows.map (fun r => cellAt f.schema r c)

/-- Dtype of column `c` (pandas stores it on the Series). -/
def dtypeOf (f : Frame) (c : String) : Dtype :=
  match f.schema.find? (fun p => p.1 == c) with
  | some p => p.2
  | none => Dtype.object

/-- Boolean-mask row selection `df = df[mask]` where the mask is a
per-row predicate on the cell of column `c`: keeps exactly the rows
whose cell satisfies `p`, in their original relative order. -/
def Frame.filterOn (f : Frame) (c : String) (p : Cell → Bool) : Frame :=
  ⟨f.schema, f.rows.filter (fun r => p (cellAt f.schema r c))⟩

/-- Distinct values of a list of cells in order of first occurrence,
missing values included — `Series.unique()`. -/
def firstUniques (xs : List Cell) : List Cell :=
  xs.foldl (fun acc c => if c ∈ acc then acc else acc ++ [c]) []

/-- Number of distinct non-missing values — `Series.nunique()` (pandas
default `dropna=True`). -/
def nunique (xs : List Cell) : Nat :=
  (firstUniques (xs.filter (fun x => decide (x ≠ Cell.missing)))).length

/-- Minimum of a list under a linear order, `none` on the empty list. -/
def foldMin? {α : Type} [LinearOrder α] : List α → Option α
  | [] => none
  | x :: xs => some (xs.foldl min x)

/-- Maximum of a list under a linear order, `none` on the empty list. -/
def foldMax? {α : Type} [LinearOrder α] : List α → Option α
  | [] => none
  | x :: xs => some (xs.foldl max x)

/-- The numeric (non-missing) values of a column. -/
def numsOf (xs : List Cell) : List ℚ :=
  xs.filterMap (fun c => match c with | Cell.num q => some q | _ => none)

/-- The datetime (non-missing) values of a column. -/
def dtsOf (xs : List Cell) : List ℤ :=
  xs.filterMap (fun c => match c with | Cell.dt t => some t | _ => none)

/-- `float(df[column].min())`: minimum over non-missing numeric values;
pandas skips NaN.  The 0 default is never exercised: the numeric branch
runs only on columns with at least 10 distinct non-missing values. -/
def qminD (xs : List Cell) : ℚ := (foldMin? (numsOf xs)).getD 0

/-- `float(df[column].max())`, see `qminD`. -/
def qmaxD (xs : List Cell) : ℚ := (foldMax? (numsOf xs)).getD 0

/-- Slider step offered to the UI: `step = (_max - _min) / 100`
(src/streamlit_app.py line 95). -/
def sliderStep (lo hi : ℚ) : ℚ := (hi - lo) / 100

/-- `Series.between(lo, hi)` on a numeric column: inclusive on both
ends; a missing value (NaN) compares false and is dropped. -/
def betweenQ (lo hi : ℚ) : Cell → Bool
  | Cell.num q => decide (lo ≤ q) && decide (q ≤ hi)
  | _ => false

/-- `Series.between(start_date, end_date)` on a datetime column:
inclusive on both ends; NaT compares false and is dropped. -/
def betweenDt (lo hi : ℤ) : Cell → Bool
  | Cell.dt t => decide (lo ≤ t) && decide (t ≤ hi)
  | _ => false

/-- `pd.to_datetime` applied to a user-picked date: normalisation of a
date to the column's datetime timeline (dates embed at midnight; the
model uses one integer timeline for both). -/
def to_datetime (d : ℤ) : ℤ := d

/-- String form of a cell, as produced by `.astype(str)`.  A missing
value (NaN) renders as the literal string "nan" in pandas.  The text
branch only ever sees object-dtype columns, whose cells here are
strings or missing; numeric and datetime renderings are coarse and not
exercised by any theorem below. -/
def cellStr : Cell → String
  | Cell.str s => s
  | Cell.missing => "nan"
  | Cell.num q => toString q.num
  | Cell.dt t => toString t

/-- Does the character list `p` lead (appear as an initial segment of)
the character list `s`? -/
def leadsWith : List Char → List Char → Bool
  | [], _ => true
  | _ :: _, [] => false
  | p :: ps, s :: ss => p == s && leadsWith ps ss

/-- Substring containment of `p` in `s` over character lists. -/
def hasSub (p : List Char) : List Char → Bool
  | [] => leadsWith p []
  | c :: ss => leadsWith p (c :: ss) || hasSub p ss

/-- Literal (metacharacter-free) pattern containment: Python
`re.search(pat, s)` on such a pattern succeeds exactly when `pat`
occurs in `s` as a substring, case-sensitively. -/
def strContainsLit (pat s : String) : Bool :=
  hasSub pat.toList s.toList

/-- The regular-expression metacharacters of Python `re`. -/
def reMeta : List Char :=
  ['.', '^', '$', '*', '+', '?', '\\', '[', ']', '|', '(', ')', '\x7b', '\x7d']

/-- Model of the pattern compilation performed inside
`Series.str.contains(pat)` (default `regex=True`, i.e. `re.compile` +
`re.search`), restricted to the pattern shapes this development
exercises: a pattern free of regex metacharacters compiles and matches
as a literal substring, and a pattern such as "[" fails to compile
(Python raises `re.error: unterminated character set`), an exception
the source does not catch.  Patterns that use metacharacters and are
valid regexes are outside the modelled subset and are conservatively
mapped to a compile error; no theorem below evaluates the filter on
such a pattern. -/
def reCompileLit (pat : String) : Except String String :=
  if pat.toList.all (fun ch => decide (ch ∉ reMeta)) then Except.ok pat
  else Except.error "re.error"

/-- Inferred widget kind of a column (spec §4.1 `classify`). -/
inductive Kind
  | Categorical
  | Numeric
  | Temporal
  | Text
deriving DecidableEq

/-- The classification dispatch of the source loop body: categorical
dtype or fewer than 10 distinct non-missing values → Categorical;
else numeric dtype → Numeric; else datetime dtype → Temporal; else
Text (src/streamlit_app.py lines 85, 92, 104, 116). -/
def classify (df : Frame) (c : String) : Kind :=
  if dtypeOf df c = Dtype.categorical ∨ nunique (df.col c) < 10 then Kind.Categorical
  else if dtypeOf df c = Dtype.numeric then Kind.Numeric
  else if dtypeOf df c = Dtype.datetime then Kind.Temporal
  else Kind.Text

/-- The per-column widget state supplied by the user for a column. -/
inductive UserInput
  | cat (selection : List Cell)
  | range (lo hi : ℚ)
  | dates (ds : List ℤ)
  | text (pat : String)
deriving DecidableEq

/-- Categorical branch: `df = df[df[column].isin(user_cat_input)]`
(line 91).  pandas `isin` matches NaN against NaN, which cell equality
reproduces. -/
def catStep (df : Frame) (c : String) (sel : List Cell) : Frame :=
  df.filterOn c (fun x => decide (x ∈ sel))

/-- Numeric branch: `df = df[df[column].between(*user_num_input)]`
(line 103). -/
def numStep (df : Frame) (c : String) (lo hi : ℚ) : Frame :=
  df.filterOn c (betweenQ lo hi)

/-- Temporal branch (lines 112-115): the filter runs only when the
date widget handed back exactly two dates; both are normalised with
`pd.to_datetime` and the comparison is inclusive.  Any other length
leaves the frame untouched. -/
def dateStep (df : Frame) (c : String) (ds : List ℤ) : Frame :=
  match ds with
  | [a, b] => df.filterOn c (betweenDt (to_datetime a) (to_datetime b))
  | _ => df

/-- Text branch (lines 120-121): an empty pattern applies no filter
(`if user_text_input:`); otherwise every cell is stringified with
`.astype(str)` and tested with `str.contains`; an invalid pattern makes
the pandas call raise and the exception propagates — the loop body has
no try/except. -/
def textStep (df : Frame) (c : String) (pat : String) : Except String Frame :=
  if pat = "" then Except.ok df
  else
    match reCompileLit pat with
    | Except.ok p => Except.ok (df.filterOn c (fun x => strContainsLit p (cellStr x)))
    | Except.error e => Except.error e

/-- The default date-input value `(df[column].min(), df[column].max())`
(lines 107-110), empty when the column has no datetime values. -/
def defaultDates (xs : List Cell) : List ℤ :=
  match foldMin? (dtsOf xs), foldMax? (dtsOf xs) with
  | some a, some b => [a, b]
  | _, _ => []

/-- One iteration of the filtering loop (lines 85-121): classify the
column on the current frame, then run the branch for its kind.  An
input whose shape does not match the widget of that kind is replaced by
the widget's default (the `default=`/`value=` arguments in the source:
all distinct values for the multiselect, the full (min, max) pair for
the slider and the date input, the empty string for the text box). -/
def applyOne (df : Frame) (c : String) (inp : UserInput) : Except String Frame :=
  match classify df c with
  | Kind.Categorical =>
    Except.ok (catStep df c
      (match inp with
       | UserInput.cat s => s
       | _ => firstUniques (df.col c)))
  | Kind.Numeric =>
    match inp with
    | UserInput.range lo hi => Except.ok (numStep df c lo hi)
    | _ => Except.ok (numStep df c (qminD (df.col c)) (qmaxD (df.col c)))
  | Kind.Temporal =>
    match inp with
    | UserInput.dates ds => Except.ok (dateStep df c ds)
    | _ => Except.ok (dateStep df c (defaultDates (df.col c)))
  | Kind.Text =>
    match inp with
    | UserInput.text p => textStep df c p
    | _ => textStep df c ""

/-- The full filtering loop `for column in to_filter_columns:`
(line 82), threading the progressively narrowed frame. -/
def applyAll (df : Frame) (l : List (String × UserInput)) : Except String Frame :=
  match l with
  | [] => Except.ok df
  | (c, i) :: rest =>
    match applyOne df c i with
    | Except.ok g => applyAll g rest
    | Except.error e => Except.error e

instance {ε α : Type} [DecidableEq ε] [DecidableEq α] : DecidableEq (Except ε α)
  | Except.ok a, Except.ok b =>
    if h : a = b then isTrue (by rw [h]) else isFalse (by intro he; cases he; exact h rfl)
  | Except.ok _, Except.error _ => isFalse (by intro h; cases h)
  | Except.error _, Except.ok _ => isFalse (by intro h; cases h)
  | Except.error e, Except.error f =>
    if h : e = f then isTrue (by rw [h]) else isFalse (by intro he; cases he; exact h rfl)

/-- A pandas Styler: the underlying data plus the per-column display
format strings attached by `.style.format(...)`. -/
structure Styled where
  data : Frame
  fmt : List (String × String)
deriving DecidableEq

/-- The format map `{"star rating": "{:.2f}"}` of lines 74 and 123. -/
def star_fmt : List (String × String) := [("star rating", "\x7b:.2f\x7d")]

/-- `filter_dataframe` (lines 61-123): `modify` is the "Add filters"
checkbox.  Unchecked, the input frame is returned untouched except for
the display formatting; checked, the selected columns are filtered in
order and the result is styled the same way. -/
def filter_dataframe (modify : Bool) (df : Frame)
    (inputs : List (String × UserInput)) : Except String Styled :=
  if !modify then Except.ok ⟨df, star_fmt⟩
  else
    match applyAll df inputs with
    | Except.ok g => Except.ok ⟨g, star_fmt⟩
    | Except.error e => Except.error e

/-- The default user input for a column, per the widget defaults in the
source: the full distinct-value list for a multiselect, the full
(min, max) range for a slider, the full (min, max) date pair for the
date input, the empty pattern for the text box. -/
def defaultInput (df : Frame) (c : String) : UserInput :=
  match classify df c with
  | Kind.Categorical => UserInput.cat (firstUniques (df.col c))
  | Kind.Numeric => UserInput.range (qminD (df.col c)) (qmaxD (df.col c))
  | Kind.Temporal => UserInput.dates (defaultDates (df.col c))
  | Kind.Text => UserInput.text ""

/-- Is the cell a numeric value?  (Well-formedness of a numeric-dtype
column: pandas float64 columns hold floats and NaN only.) -/
def cellIsNum : Cell → Bool
  | Cell.num _ => true
  | _ => false

/-- Is the cell a datetime value? -/
def cellIsDt : Cell → Bool
  | Cell.dt _ => true
  | _ => false

/-! Helper lemmas about the embedded pandas operations. -/

lemma foldlUniq_mem (xs : List Cell) (acc : List Cell) (a : Cell)
    (h : a ∈ acc ∨ a ∈ xs) :
    a ∈ xs.foldl (fun acc c => if c ∈ acc then acc else acc ++ [c]) acc := by
  induction xs generalizing acc with
  | nil => simpa using h
  | cons c rest ih =>
    simp only [List.foldl_cons]
    apply ih
    rcases h with h | h
    · left
      by_cases hc : c ∈ acc
      · simpa [hc] using h
      · simp [hc, List.mem_append, h]
    · rcases List.mem_cons.mp h with rfl | h
      · left
        by_cases hc : a ∈ acc <;> simp [hc]
      · right; exact h

lemma mem_firstUniques {xs : List Cell} {a : Cell} (ha : a ∈ xs) :
    a ∈ firstUniques xs :=
  foldlUniq_mem xs [] a (Or.inr ha)

lemma foldlUniq_const (xs : List Cell) (v : Cell) (hxs : ∀ x ∈ xs, x = v) :
    ∀ acc, (acc = [] ∨ acc = [v]) →
      (xs.foldl (fun acc c => if c ∈ acc then acc else acc ++ [c]) acc = [] ∨
       xs.foldl (fun acc c => if c ∈ acc then acc else acc ++ [c]) acc = [v]) := by
  induction xs with
  | nil => intro acc hacc; simpa using hacc
  | cons c rest ih =>
    intro acc hacc
    have hc : c = v := hxs c (List.mem_cons_self c rest)
    subst hc
    have hrest : ∀ x ∈ rest, x = c := fun x hx => hxs x (List.mem_cons_of_mem c hx)
    simp only [List.foldl_cons]
    rcases hacc with rfl | rfl
    · exact ih hrest _ (by simp)
    · exact ih hrest _ (by simp)

lemma foldl_min_le_init {α : Type} [LinearOrder α] (l : List α) (a : α) :
    l.foldl min a ≤ a := by
  induction l generalizing a with
  | nil => simp
  | cons x xs ih =>
    simpa using le_trans (ih (min a x)) (min_le_left a x)

lemma foldl_min_le_mem {α : Type} [LinearOrder α] {l : List α} {x : α} (hx : x ∈ l) (a : α) :
    l.foldl min a ≤ x := by
  induction l generalizing a with
  | nil => cases hx
  | cons y ys ih =>
    rcases List.mem_cons.mp hx with rfl | h
    · exact le_trans (foldl_min_le_init ys (min a x)) (min_le_right a x)
    · exact ih h (min a y)

lemma foldMin?_le {α : Type} [LinearOrder α] {l : List α} {m x : α}
    (hm : foldMin? l = some m) (hx : x ∈ l) : m ≤ x := by
  cases l with
  | nil => cases hx
  | cons y ys =>
    simp only [foldMin?, Option.some.injEq] at hm
    subst hm
    rcases List.mem_cons.mp hx with rfl | h
    · exact foldl_min_le_init ys x
    · exact foldl_min_le_mem h y

lemma le_foldl_max_init {α : Type} [LinearOrder α] (l : List α) (a : α) :
    a ≤ l.foldl max a := by
  induction l generalizing a with
  | nil => simp
  | cons x xs ih =>
    simpa using le_trans (le_max_left a x) (ih (max a x))

lemma mem_le_foldl_max {α : Type} [LinearOrder α] {l : List α} {x : α} (hx : x ∈ l) (a : α) :
    x ≤ l.foldl max a := by
  induction l generalizing a with
  | nil => cases hx
  | cons y ys ih =>
    rcases List.mem_cons.mp hx with rfl | h
    · exact le_trans (le_max_right a x) (le_foldl_max_init ys (max a x))
    · exact ih h (max a y)

lemma le_foldMax? {α : Type} [LinearOrder α] {l : List α} {m x : α}
    (hm : foldMax? l = some m) (hx : x ∈ l) : x ≤ m := by
  cases l with
  | nil => cases hx
  | cons y ys =>
    simp only [foldMax?, Option.some.injEq] at hm
    subst hm
    rcases List.mem_cons.mp hx with rfl | h
    · exact le_foldl_max_init ys x
    · exact mem_le_foldl_max h y

lemma foldMin?_of_mem {α : Type} [LinearOrder α] {l : List α} {x : α} (hx : x ∈ l) :
    ∃ m, foldMin? l = some m ∧ m ≤ x := by
  cases l with
  | nil => cases hx
  | cons y ys =>
    have h : foldMin? (y :: ys) = some (ys.foldl min y) := rfl
    exact ⟨_, h, foldMin?_le h hx⟩

lemma foldMax?_of_mem {α : Type} [LinearOrder α] {l : List α} {x : α} (hx : x ∈ l) :
    ∃ m, foldMax? l = some m ∧ x ≤ m := by
  cases l with
  | nil => cases hx
  | cons y ys =>
    have h : foldMax? (y :: ys) = some (ys.foldl max y) := rfl
    exact ⟨_, h, le_foldMax? h hx⟩

lemma mem_numsOf {xs : List Cell} {q : ℚ} (h : Cell.num q ∈ xs) : q ∈ numsOf xs :=
  List.mem_filterMap.mpr ⟨Cell.num q, h, rfl⟩

lemma mem_dtsOf {xs : List Cell} {t : ℤ} (h : Cell.dt t ∈ xs) : t ∈ dtsOf xs :=
  List.mem_filterMap.mpr ⟨Cell.dt t, h, rfl⟩

lemma cellIsNum_iff (x : Cell) : cellIsNum x = true ↔ ∃ q, x = Cell.num q := by
  cases x <;> simp [cellIsNum]

lemma cellIsDt_iff (x : Cell) : cellIsDt x = true ↔ ∃ t, x = Cell.dt t := by
  cases x <;> simp [cellIsDt]

lemma cellAt_mem_col (df : Frame) (r : List Cell) (c : String) (hr : r ∈ df.rows) :
    cellAt df.schema r c ∈ df.col c :=
  List.mem_map_of_mem (fun r => cellAt df.schema r c) hr

lemma filterOn_eq_self (f : Frame) (c : String) (p : Cell → Bool)
    (h : ∀ r ∈ f.rows, p (cellAt f.schema r c) = true) : f.filterOn c p = f := by
  simp only [Frame.filterOn]
  rw [List.filter_eq_self.mpr h]

lemma filter_swap {α : Type} (p q : α → Bool) (l : List α) :
    (l.filter p).filter q = (l.filter q).filter p := by
  induction l with
  | nil => rfl
  | cons x xs ih =>
    by_cases hp : p x <;> by_cases hq : q x <;>
      simp [List.filter_cons, hp, hq, ih]

lemma Frame.filterOn_comm (f : Frame) (a b : String) (pa pb : Cell → Bool) :
    (f.filterOn a pa).filterOn b pb = (f.filterOn b pb).filterOn a pa := by
  simp only [Frame.filterOn]
  exact congrArg (Frame.mk f.schema) (filter_swap _ _ f.rows)

/-! Concrete frames used by witnesses and counterexamples. -/

/-- A 20-row frame whose numeric `rating` column repeats 1..5. -/
def exRating : Frame :=
  ⟨[("rating", Dtype.numeric)],
   [[Cell.num 1], [Cell.num 2], [Cell.num 3], [Cell.num 4], [Cell.num 5],
    [Cell.num 1], [Cell.num 2], [Cell.num 3], [Cell.num 4], [Cell.num 5],
    [Cell.num 1], [Cell.num 2], [Cell.num 3], [Cell.num 4], [Cell.num 5],
    [Cell.num 1], [Cell.num 2], [Cell.num 3], [Cell.num 4], [Cell.num 5]]⟩

/-- A datetime column with only 3 distinct values. -/
def exDate5 : Frame :=
  ⟨[("d", Dtype.datetime)], [[Cell.dt 100], [Cell.dt 200], [Cell.dt 300]]⟩

/-- A numeric column with 11 distinct values 0..10 and no missing
entries, so it is classified Numeric. -/
def exNum11 : Frame :=
  ⟨[("x", Dtype.numeric)],
   [[Cell.num 0], [Cell.num 1], [Cell.num 2], [Cell.num 3], [Cell.num 4],
    [Cell.num 5], [Cell.num 6], [Cell.num 7], [Cell.num 8], [Cell.num 9],
    [Cell.num 10]]⟩

/-- A datetime column with 11 distinct values 0..10, classified
Temporal. -/
def exDate11 : Frame :=
  ⟨[("d", Dtype.datetime)],
   [[Cell.dt 0], [Cell.dt 1], [Cell.dt 2], [Cell.dt 3], [Cell.dt 4],
    [Cell.dt 5], [Cell.dt 6], [Cell.dt 7], [Cell.dt 8], [Cell.dt 9],
    [Cell.dt 10]]⟩

/-- A constant numeric column (min = max = 7) with a missing entry. -/
def exConst : Frame :=
  ⟨[("x", Dtype.numeric)], [[Cell.num 7], [Cell.num 7], [Cell.missing]]⟩

/-- A numeric column with 10 distinct values 0..9 plus one missing
entry: classified Numeric, and the default full-range slider filter
drops the missing row. -/
def exNum10m : Frame :=
  ⟨[("x", Dtype.numeric)],
   [[Cell.num 0], [Cell.num 1], [Cell.num 2], [Cell.num 3], [Cell.num 4],
    [Cell.num 5], [Cell.num 6], [Cell.num 7], [Cell.num 8], [Cell.num 9],
    [Cell.missing]]⟩

/-- Two numeric columns: `a` has 11 distinct values, `b` has exactly
10, and restricting `a` to [0, 8] pushes `b` below the 10-distinct
threshold, flipping its classification to Categorical. -/
def exAB : Frame :=
  ⟨[("a", Dtype.numeric), ("b", Dtype.numeric)],
   [[Cell.num 0, Cell.num 0], [Cell.num 1, Cell.num 1], [Cell.num 2, Cell.num 2],
    [Cell.num 3, Cell.num 3], [Cell.num 4, Cell.num 4], [Cell.num 5, Cell.num 5],
    [Cell.num 6, Cell.num 6], [Cell.num 7, Cell.num 7], [Cell.num 8, Cell.num 8],
    [Cell.num 9, Cell.num 9], [Cell.num 10, Cell.num 9]]⟩

/-- Two categorical-dtype columns, whose classification cannot change
as rows are filtered. -/
def exCat2 : Frame :=
  ⟨[("a", Dtype.categorical), ("b", Dtype.categorical)],
   [[Cell.str "x", Cell.str "u"], [Cell.str "y", Cell.str "v"],
    [Cell.str "x", Cell.str "v"]]⟩

/-- An object-dtype column with 10 distinct strings (so it is
classified Text), one of which contains the character "[". -/
def exT3 : Frame :=
  ⟨[("t", Dtype.object)],
   [[Cell.str "s0"], [Cell.str "s1"], [Cell.str "s2"], [Cell.str "s3"],
    [Cell.str "s4"], [Cell.str "s5"], [Cell.str "s6"], [Cell.str "s7"],
    [Cell.str "s8"], [Cell.str "a[b"]]⟩

/-- An object-dtype column with 10 distinct strings plus a missing
entry, classified Text. -/
def exT4 : Frame :=
  ⟨[("t", Dtype.object)],
   [[Cell.str "s0"], [Cell.str "s1"], [Cell.str "s2"], [Cell.str "s3"],
    [Cell.str "s4"], [Cell.str "s5"], [Cell.str "s6"], [Cell.str "s7"],
    [Cell.str "s8"], [Cell.str "s9"], [Cell.missing]]⟩

/-! The claims. -/

/-- C1: The categorical check runs before the numeric and temporal
checks: a column whose dtype is categorical, or whose number of
distinct non-missing values is strictly below 10, is classified
Categorical regardless of whether its dtype is numeric or datetime. -/
theorem C1_categorical_first (df : Frame) (c : String)
    (h : dtypeOf df c = Dtype.categorical ∨ nunique (df.col c) < 10) :
    classify df c = Kind.Categorical := by
  simp only [classify, if_pos h]

theorem C1_categorical_first_witness :
    classify exRating "rating" = Kind.Categorical ∧
    classify exDate5 "d" = Kind.Categorical :=
  ⟨C1_categorical_first exRating "rating" (Or.inr (by decide)),
   C1_categorical_first exDate5 "d" (Or.inr (by decide))⟩

/-- C5: On a column classified Numeric, the slider filter keeps a row
exactly when its value v satisfies lo ≤ v ≤ hi, inclusive on both
ends; a missing value fails the test. -/
theorem C5_numeric_between_inclusive (df : Frame) (c : String) (lo hi : ℚ)
    (hk : classify df c = Kind.Numeric) :
    applyOne df c (UserInput.range lo hi) =
      Except.ok (df.filterOn c (betweenQ lo hi)) ∧
    (∀ v : ℚ, betweenQ lo hi (Cell.num v) = true ↔ lo ≤ v ∧ v ≤ hi) ∧
    betweenQ lo hi Cell.missing = false := by
  refine ⟨?_, ?_, rfl⟩
  · simp only [applyOne, hk, numStep]
  · intro v; simp [betweenQ]

theorem C5_numeric_between_inclusive_witness :
    applyOne exNum11 "x" (UserInput.range 1 2) =
      Except.ok (exNum11.filterOn "x" (betweenQ 1 2)) ∧
    [Cell.num 1, Cell.num 2, Cell.num 3].filter (betweenQ 1 2) =
      [Cell.num 1, Cell.num 2] :=
  ⟨(C5_numeric_between_inclusive exNum11 "x" 1 2 (by decide)).1, by decide⟩

/-- C6: On a column classified Temporal, a date input that is not a
pair applies no filter at all (the frame is returned untouched); when
exactly two dates are supplied both are normalised with to_datetime
and rows are kept by an inclusive comparison on both ends. -/
theorem C6_temporal_pair_gate (df : Frame) (c : String) (ds : List ℤ)
    (hk : classify df c = Kind.Temporal) :
    (ds.length ≠ 2 → applyOne df c (UserInput.dates ds) = Except.ok df) ∧
    ∀ a b, ds = [a, b] →
      applyOne df c (UserInput.dates ds) =
        Except.ok (df.filterOn c (betweenDt (to_datetime a) (to_datetime b))) ∧
      ∀ t : ℤ, betweenDt (to_datetime a) (to_datetime b) (Cell.dt t) = true ↔
        to_datetime a ≤ t ∧ t ≤ to_datetime b := by
  constructor
  · intro hlen
    simp only [applyOne, hk]
    cases ds with
    | nil => rfl
    | cons a t =>
      cases t with
      | nil => rfl
      | cons b u =>
        cases u with
        | nil => exact absurd rfl hlen
        | cons e v => rfl
  · intro a b hab
    subst hab
    refine ⟨?_, ?_⟩
    · simp only [applyOne, hk, dateStep]
    · intro t; simp [betweenDt]

theorem C6_temporal_pair_gate_witness :
    applyOne exDate11 "d" (UserInput.dates [3]) = Except.ok exDate11 ∧
    applyOne exDate11 "d" (UserInput.dates [2, 5]) =
      Except.ok (exDate11.filterOn "d" (betweenDt (to_datetime 2) (to_datetime 5))) :=
  ⟨(C6_temporal_pair_gate exDate11 "d" [3] (by decide)).1 (by decide),
   ((C6_temporal_pair_gate exDate11 "d" [2, 5] (by decide)).2 2 5 rfl).1⟩

/-- C9: On a column classified Categorical, a row is kept exactly when
its value is a member of the chosen selection, and the kept rows form a
subsequence of the input rows (original relative order). -/
theorem C9_categorical_membership (df : Frame) (c : String) (sel : List Cell)
    (hk : classify df c = Kind.Categorical) :
    applyOne df c (UserInput.cat sel) =
      Except.ok (df.filterOn c (fun x => decide (x ∈ sel))) ∧
    (df.filterOn c (fun x => decide (x ∈ sel))).rows.Sublist df.rows ∧
    ∀ r, r ∈ (df.filterOn c (fun x => decide (x ∈ sel))).rows ↔
      r ∈ df.rows ∧ cellAt df.schema r c ∈ sel := by
  refine ⟨?_, ?_, ?_⟩
  · simp only [applyOne, hk, catStep]
  · exact List.filter_sublist _
  · intro r
    simp only [Frame.filterOn, List.mem_filter, decide_eq_true_eq]

theorem C9_categorical_membership_witness :
    applyOne exRating "rating" (UserInput.cat [Cell.num 3, Cell.num 5]) =
      Except.ok (exRating.filterOn "rating"
        (fun x => decide (x ∈ [Cell.num 3, Cell.num 5]))) ∧
    (exRating.filterOn "rating"
        (fun x => decide (x ∈ [Cell.num 3, Cell.num 5]))).rows =
      [[Cell.num 3], [Cell.num 5], [Cell.num 3], [Cell.num 5],
       [Cell.num 3], [Cell.num 5], [Cell.num 3], [Cell.num 5]] :=
  ⟨(C9_categorical_membership exRating "rating" [Cell.num 3, Cell.num 5]
      (by decide)).1, by decide⟩

/-- C10: With the "Add filters" checkbox unchecked, filter_dataframe
returns the input frame with every row and cell unchanged; the only
addition is the two-decimal display format attached to the
"star rating" column. -/
theorem C10_unchecked_identity (df : Frame) (inputs : List (String × UserInput)) :
    filter_dataframe false df inputs = Except.ok ⟨df, star_fmt⟩ ∧
    star_fmt = [("star rating", "\x7b:.2f\x7d")] :=
  ⟨rfl, rfl⟩

/-- C2 counterexample: the claim fails as stated.  On a numeric column
holding 0..9 plus one missing value (11 rows, classified Numeric), the
default full-range slider constraint [0, 9] drops the missing row: the
result has 10 rows, not the input frame. -/
theorem C2_default_identity_cex :
    classify exNum10m "x" = Kind.Numeric ∧
    defaultInput exNum10m "x" = UserInput.range 0 9 ∧
    applyOne exNum10m "x" (defaultInput exNum10m "x") ≠ Except.ok exNum10m ∧
    applyOne exNum10m "x" (defaultInput exNum10m "x") =
      Except.ok ⟨[("x", Dtype.numeric)],
        [[Cell.num 0], [Cell.num 1], [Cell.num 2], [Cell.num 3], [Cell.num 4],
         [Cell.num 5], [Cell.num 6], [Cell.num 7], [Cell.num 8], [Cell.num 9]]⟩ := by
  decide

/-- C2 (amended): applying the default per-column constraint (full
distinct-value selection, full [min, max] range, full date pair, empty
pattern) returns the dataset unchanged provided a column classified
Numeric or Temporal contains no missing values — a missing entry is
dropped by the default full-range filter — and an empty constraint set
always returns the original dataset unchanged. -/
theorem C2_default_identity (df : Frame) (c : String)
    (hN : classify df c = Kind.Numeric → (df.col c).all cellIsNum = true)
    (hT : classify df c = Kind.Temporal → (df.col c).all cellIsDt = true) :
    applyOne df c (defaultInput df c) = Except.ok df ∧
    applyAll df [] = Except.ok df := by
  refine ⟨?_, rfl⟩
  cases hk : classify df c with
  | Categorical =>
    simp only [defaultInput, hk, applyOne, catStep]
    refine congrArg Except.ok (filterOn_eq_self df c _ (fun r hr => ?_))
    simp only [decide_eq_true_eq]
    exact mem_firstUniques (cellAt_mem_col df r c hr)
  | Numeric =>
    have hall := hN hk
    simp only [defaultInput, hk, applyOne, numStep]
    refine congrArg Except.ok (filterOn_eq_self df c _ (fun r hr => ?_))
    have hmem := cellAt_mem_col df r c hr
    have hnum := (List.all_eq_true.mp hall) _ hmem
    obtain ⟨q, hq⟩ := (cellIsNum_iff _).mp hnum
    rw [hq] at hmem ⊢
    have hqmem : q ∈ numsOf (df.col c) := mem_numsOf hmem
    obtain ⟨m, hm, hmle⟩ := foldMin?_of_mem hqmem
    obtain ⟨M, hM, hMle⟩ := foldMax?_of_mem hqmem
    simp [betweenQ, qminD, qmaxD, hm, hM, hmle, hMle]
  | Temporal =>
    have hall := hT hk
    simp only [defaultInput, hk, applyOne]
    cases hds : dtsOf (df.col c) with
    | nil => simp [defaultDates, hds, foldMin?, foldMax?, dateStep]
    | cons t ts =>
      have hmin : foldMin? (dtsOf (df.col c)) = some (ts.foldl min t) := by
        rw [hds]; rfl
      have hmax : foldMax? (dtsOf (df.col c)) = some (ts.foldl max t) := by
        rw [hds]; rfl
      simp only [defaultDates, hmin, hmax, dateStep]
      refine congrArg Except.ok (filterOn_eq_self df c _ (fun r hr => ?_))
      have hmem := cellAt_mem_col df r c hr
      have hdt := (List.all_eq_true.mp hall) _ hmem
      obtain ⟨u, hu⟩ := (cellIsDt_iff _).mp hdt
      rw [hu] at hmem ⊢
      have humem : u ∈ dtsOf (df.col c) := mem_dtsOf hmem
      have h1 : ts.foldl min t ≤ u := foldMin?_le hmin humem
      have h2 : u ≤ ts.foldl max t := le_foldMax? hmax humem
      simp [betweenDt, to_datetime, h1, h2]
  | Text =>
    simp [defaultInput, hk, applyOne, textStep]

theorem C2_default_identity_witness :
    applyOne exNum11 "x" (defaultInput exNum11 "x") = Except.ok exNum11 ∧
    applyAll exNum11 [] = Except.ok exNum11 :=
  C2_default_identity exNum11 "x" (fun _ => by decide) (fun h => absurd h (by decide))

/-- C3 counterexample: the claim fails as stated.  With the invalid
regular expression "[" on a Text column, the engine propagates the
compile error instead of falling back to literal-substring matching;
the fallback would have kept exactly the row containing "[". -/
theorem C3_invalid_regex_cex :
    applyOne exT3 "t" (UserInput.text "[") = Except.error "re.error" ∧
    (exT3.filterOn "t" (fun x => strContainsLit "[" (cellStr x))).rows =
      [[Cell.str "a[b"]] := by
  decide

/-- C3 (amended): a text pattern that fails to compile as a regular
expression is not a recoverable condition — the pandas str.contains
call raises and the loop body, which has no exception handler,
propagates the error to the caller; no literal-substring fallback is
performed. -/
theorem C3_invalid_regex_raises (df : Frame) (c : String) (pat e : String)
    (hk : classify df c = Kind.Text) (hne : pat ≠ "")
    (hbad : reCompileLit pat = Except.error e) :
    applyOne df c (UserInput.text pat) = Except.error e := by
  simp only [applyOne, hk, textStep, if_neg hne, hbad]

theorem C3_invalid_regex_raises_witness :
    applyOne exT3 "t" (UserInput.text "[") = Except.error "re.error" :=
  C3_invalid_regex_raises exT3 "t" "[" "re.error" (by decide) (by decide) (by decide)

/-- Modelled from the spec: the coercion the C4 claim describes, which
would send a missing value to the literal placeholder string "missing"
(where `.astype(str)` actually produces "nan"). -/
def specMissingCoerce : Cell → String
  | Cell.missing => "missing"
  | x => cellStr x

/-- C4 counterexample: the claim fails as stated.  On a Text column
with a missing entry and the pattern "missing", the engine keeps no row
(the missing value stringifies to "nan", which does not contain
"missing"), whereas the coercion the claim describes would have kept
the missing row. -/
theorem C4_missing_placeholder_cex :
    applyOne exT4 "t" (UserInput.text "missing") =
      Except.ok ⟨[("t", Dtype.object)], []⟩ ∧
    (exT4.filterOn "t" (fun x => strContainsLit "missing" (specMissingCoerce x))).rows =
      [[Cell.missing]] := by
  decide

/-- C4 (amended): on a text-filtered column every value is coerced with
astype(str) before the containment test, and a missing value coerces to
the literal string "nan" — not "missing". -/
theorem C4_missing_coerces_to_nan (df : Frame) (c : String) (pat : String)
    (hk : classify df c = Kind.Text) (hne : pat ≠ "")
    (hok : reCompileLit pat = Except.ok pat) :
    applyOne df c (UserInput.text pat) =
      Except.ok (df.filterOn c (fun x => strContainsLit pat (cellStr x))) ∧
    cellStr Cell.missing = "nan" := by
  refine ⟨?_, rfl⟩
  simp only [applyOne, hk, textStep, if_neg hne, hok]

theorem C4_missing_coerces_to_nan_witness :
    applyOne exT4 "t" (UserInput.text "nan") =
      Except.ok (exT4.filterOn "t" (fun x => strContainsLit "nan" (cellStr x))) ∧
    cellStr Cell.missing = "nan" :=
  C4_missing_coerces_to_nan exT4 "t" "nan" (by decide) (by decide) (by decide)

/-- C7: a numeric column whose minimum equals its maximum has at most
one distinct non-missing value, so it is classified Categorical and
constraint application cannot raise; the slider step (max - min) / 100
computes to 0 and the inclusive range test with lo = hi collapses to
equality with that single value. -/
theorem C7_degenerate_min_eq_max (df : Frame) (c : String) (m : ℚ)
    (hmin : foldMin? (numsOf (df.col c)) = some m)
    (hmax : foldMax? (numsOf (df.col c)) = some m)
    (hwf : (df.col c).all (fun x => cellIsNum x || decide (x = Cell.missing)) = true) :
    classify df c = Kind.Categorical ∧
    sliderStep m m = 0 ∧
    (∀ v : ℚ, betweenQ m m (Cell.num v) = true ↔ v = m) ∧
    ∀ inp, ∃ g, applyOne df c inp = Except.ok g := by
  have hconst : ∀ x ∈ (df.col c).filter (fun x => decide (x ≠ Cell.missing)),
      x = Cell.num m := by
    intro x hx
    obtain ⟨hxm, hxd⟩ := List.mem_filter.mp hx
    have hnm : x ≠ Cell.missing := by simpa using hxd
    have hor := (List.all_eq_true.mp hwf) _ hxm
    have hxn : cellIsNum x = true := by
      cases hcn : cellIsNum x with
      | true => rfl
      | false =>
        rw [hcn] at hor
        simp only [Bool.false_or, decide_eq_true_eq] at hor
        exact absurd hor hnm
    obtain ⟨q, hq⟩ := (cellIsNum_iff _).mp hxn
    subst hq
    have hqmem := mem_numsOf hxm
    have h1 := foldMin?_le hmin hqmem
    have h2 := le_foldMax? hmax hqmem
    rw [le_antisymm h2 h1]
  have hle : nunique (df.col c) ≤ 1 := by
    have h := foldlUniq_const _ (Cell.num m) hconst [] (Or.inl rfl)
    unfold nunique firstUniques
    rcases h with h | h <;> rw [h] <;> simp
  have hlt : nunique (df.col c) < 10 := lt_of_le_of_lt hle (by norm_num)
  have hclass : classify df c = Kind.Categorical := by
    unfold classify
    rw [if_pos (Or.inr hlt)]
  refine ⟨hclass, by simp [sliderStep], ?_, ?_⟩
  · intro v
    simp only [betweenQ, Bool.and_eq_true, decide_eq_true_eq]
    constructor
    · rintro ⟨h1, h2⟩; exact le_antisymm h2 h1
    · rintro rfl; exact ⟨le_refl _, le_refl _⟩
  · intro inp
    simp only [applyOne, hclass]
    exact ⟨_, rfl⟩

theorem C7_degenerate_min_eq_max_witness :
    classify exConst "x" = Kind.Categorical ∧
    sliderStep 7 7 = 0 ∧
    betweenQ 7 7 (Cell.num 7) = true := by
  have h := C7_degenerate_min_eq_max exConst "x" 7 (by decide) (by decide) (by decide)
  exact ⟨h.1, h.2.1, (h.2.2.1 7).mpr rfl⟩

/-- C8 counterexample: the claim fails as stated.  On two numeric
columns with fixed range constraints a ∈ [0, 8] and b ∈ [0, 3], where
filtering a pushes b below the 10-distinct-value threshold, the two
application orders produce different row sets: [a, b] keeps 9 rows
(b is reclassified Categorical and its range constraint no longer
applies), [b, a] keeps 4. -/
theorem C8_order_cex :
    applyAll exAB [("a", UserInput.range 0 8), ("b", UserInput.range 0 3)] ≠
    applyAll exAB [("b", UserInput.range 0 3), ("a", UserInput.range 0 8)] := by
  decide

/-- C8 (amended): applying two per-column constraints is
order-independent provided each column's step acts as the same fixed
per-row predicate on the original frame and on the frame filtered by
the other column — that is, provided neither filter changes the other
column's classification or effective constraint.  Under that stability
the two orders give the same row set. -/
theorem C8_order_independent_of_stable (df : Frame) (a b : String)
    (ia ib : UserInput) (pa pb : Cell → Bool)
    (ha1 : applyOne df a ia = Except.ok (df.filterOn a pa))
    (hb1 : applyOne df b ib = Except.ok (df.filterOn b pb))
    (ha2 : applyOne (df.filterOn b pb) a ia =
      Except.ok ((df.filterOn b pb).filterOn a pa))
    (hb2 : applyOne (df.filterOn a pa) b ib =
      Except.ok ((df.filterOn a pa).filterOn b pb)) :
    applyAll df [(a, ia), (b, ib)] = applyAll df [(b, ib), (a, ia)] := by
  simp only [applyAll, ha1, hb1, ha2, hb2]
  exact congrArg Except.ok (Frame.filterOn_comm df a b pa pb)

theorem C8_order_independent_of_stable_witness :
    applyAll exCat2
      [("a", UserInput.cat [Cell.str "x"]), ("b", UserInput.cat [Cell.str "v"])] =
    applyAll exCat2
      [("b", UserInput.cat [Cell.str "v"]), ("a", UserInput.cat [Cell.str "x"])] :=
  C8_order_independent_of_stable exCat2 "a" "b"
    (UserInput.cat [Cell.str "x"]) (UserInput.cat [Cell.str "v"])
    (fun x => decide (x ∈ [Cell.str "x"])) (fun x => decide (x ∈ [Cell.str "v"]))
    (by decide) (by decide) (by decide) (by decide)

end BookApp
